import Mathlib

/-!
# Verification of the consumption-analytics engine

A shallow embedding, in Lean 4, of the normalization / reshaping / analysis
pipeline of the repository (src/prepare_data.py, src/run_analysis.py,
dashboards/app.py), together with theorems settling the frozen claims about
its natural-language specification.

Numeric cells are modelled by `ℚ`; pandas NaN/null propagation is modelled by
`Option`; the IEEE results of dividing by an exact zero are modelled by the
small inductive `FVal`.  Tables are lists of rows; a pandas `groupby(...).sum`
is `groupby_sum`.  Each definition carries a comment naming the source line it
embeds; the few definitions whose doc comment starts `Modelled from the spec:`
embed repository behaviour that is not present under src/ and are taken from
the specification's own words instead.
-/

/-! ## String utilities (shared by prepare_data.py and app.py embeddings) -/

/-- ASCII lowercasing of one character (Python `str.lower` on the ASCII
names this pipeline sees). -/
def lowerChar (c : Char) : Char :=
  if 65 ≤ c.toNat ∧ c.toNat ≤ 90 then Char.ofNat (c.toNat + 32) else c

/-- Python `str.strip`: drop leading and trailing whitespace. -/
def trimCL (l : List Char) : List Char :=
  ((l.dropWhile Char.isWhitespace).reverse.dropWhile Char.isWhitespace).reverse

/-- Python `str.lower` on a whole string. -/
def lowerStr (s : String) : String := ⟨s.data.map lowerChar⟩

/-- `c.strip().lower()` applied to a raw column name (prepare_data.py line 17). -/
def canonName (c : String) : String := ⟨trimCL (c.data.map lowerChar)⟩

/-- Scan of a character list for the regex `20\d{2}` (prepare_data.py line 28 and
line 38): the first match is returned as the year value `20xy`. -/
def extractYear : List Char → Option Int
  | [] => none
  | c :: t =>
    (match c, t with
     | '2', '0' :: d1 :: d2 :: _ =>
       if d1.isDigit && d2.isDigit then
         some (2000 + 10 * ((d1.toNat : Int) - 48) + ((d2.toNat : Int) - 48))
       else none
     | _, _ => none).orElse (fun _ => extractYear t)

/-- `re.search(r"20\d{2}", c)` succeeds (prepare_data.py line 28). -/
def hasYear (l : List Char) : Bool := (extractYear l).isSome

/-- Case-sensitive substring test on character lists. -/
def hasSubstr (pat : List Char) : List Char → Bool
  | [] => pat.isEmpty
  | c :: t => List.isPrefixOf pat (c :: t) || hasSubstr pat t

/-- `Series.str.contains("vacant", case=False)` (app.py lines 227 and 276). -/
def containsVacant (s : String) : Bool :=
  hasSubstr "vacant".data (lowerStr s).data

/-! ## Schema Normalizer (prepare_data.py lines 9-25) -/

/-- The alias table `COLUMN_ALIASES` (prepare_data.py lines 9-14), in its
insertion order. -/
def COLUMN_ALIASES : List (String × List String) :=
  [("resource zone", ["resource zone", "zone", "rz"]),
   ("business_type", ["type of business", "account type"]),
   ("occupancy_status", ["occupancy status", "occupied/vacant", "status"]),
   ("property_id", ["spid", "id", "site id"])]

/-- The loop of `normalize_columns` (prepare_data.py lines 18-23) over an
arbitrary alias table: for each target, the first alias found among the
(already lowercased/stripped) columns `n` contributes one rename entry. -/
def buildRenameAux (tbl : List (String × List String)) (n : List String) :
    List (String × String) :=
  tbl.foldl (fun acc ta =>
    match ta.2.find? (fun a => n.contains a) with
    | some a => acc ++ [(a, ta.1)]
    | none => acc) []

/-- The rename dictionary built by `normalize_columns` (prepare_data.py
lines 18-23). -/
def buildRename (n : List String) : List (String × String) :=
  buildRenameAux COLUMN_ALIASES n

/-- `df.rename(columns=rename)` applied to one column name
(prepare_data.py line 24). -/
def applyRename (ren : List (String × String)) (c : String) : String :=
  match ren.find? (fun pr => pr.1 = c) with
  | some pr => pr.2
  | none => c

/-- `normalize_columns` (prepare_data.py lines 16-25) acting on the list of
column names: every name is lowercased and stripped, then the alias renames
are applied. -/
def normalize_columns (cols : List String) : List String :=
  (cols.map canonName).map (applyRename (buildRename (cols.map canonName)))

/-- A cell of the raw spreadsheet: a number, an unparsed string, or an empty
cell (pandas NaN). -/
inductive Cell where
  | num (q : ℚ)
  | str (s : String)
  | missing
deriving DecidableEq

/-- A raw table: column names plus rows of cells aligned with them. -/
structure RawFrame where
  cols : List String
  rows : List (List Cell)

/-- `normalize_columns` on a whole frame: `df.rename` only relabels the
header, the rows are untouched (prepare_data.py lines 16-25). -/
def normalize_frame (f : RawFrame) : RawFrame :=
  { cols := normalize_columns f.cols, rows := f.rows }

/-! ## Reshaper (prepare_data.py lines 27-40) -/

/-- `detect_year_columns` (prepare_data.py lines 27-28). -/
def detect_year_columns (cols : List String) : List String :=
  cols.filter (fun c => hasYear c.toList)

/-- Parse an all-digit character list as a natural number. -/
def parseDigits (l : List Char) : Option Nat :=
  if l.isEmpty then none
  else if l.all Char.isDigit then
    some (l.foldl (fun n c => 10 * n + (c.toNat - 48)) 0)
  else none

/-- Parse an unsigned decimal numeral, with an optional fractional part. -/
def parseUnsigned (l : List Char) : Option ℚ :=
  match l.splitOn '.' with
  | [ds] => (parseDigits ds).map (fun n => (n : ℚ))
  | [ds, fs] =>
    match parseDigits ds, parseDigits fs with
    | some n, some m => some ((n : ℚ) + (m : ℚ) / ((10 : ℚ) ^ fs.length))
    | _, _ => none
  | _ => none

/-- Parse a decimal numeral with an optional leading sign, after stripping
surrounding whitespace — the shape of string `pd.to_numeric` accepts. -/
def parseNum (s : String) : Option ℚ :=
  match trimCL s.data with
  | '-' :: t => (parseUnsigned t).map (fun q => -q)
  | '+' :: t => parseUnsigned t
  | t => parseUnsigned t

/-- `pd.to_numeric(..., errors="coerce")` on one cell (prepare_data.py
line 39): numbers pass through, numeric strings parse, anything else
becomes NaN (`none`), as does an already-missing cell. -/
def toNumeric : Cell → Option ℚ
  | .num q => some q
  | .str s => parseNum s
  | .missing => none

/-- The detected year columns paired with their positions. -/
def yearCols (f : RawFrame) : List (Nat × String) :=
  f.cols.enum.filter (fun ci => hasYear ci.2.toList)

/-- `df.melt(id_vars=..., value_vars=year_cols, ...)` (prepare_data.py
lines 36-37): one record per (year column, row) pair, keyed by
(row index, column index) and carrying the consumption cell.  The identifier
columns are carried verbatim on each output row by the source; they are
recoverable here from the row index. -/
def meltPairs (f : RawFrame) : List ((Nat × Nat) × Cell) :=
  (yearCols f).flatMap (fun ci =>
    f.rows.enum.map (fun ri => ((ri.1, ci.1), ri.2.getD ci.1 Cell.missing)))

/-- Lines 36-40 of prepare_data.py composed: melt, extract the year from the
originating column name, coerce consumption to numeric, and drop the rows
whose consumption failed to coerce. -/
def reshape (f : RawFrame) : List ((Nat × Nat) × Int × ℚ) :=
  (meltPairs f).filterMap (fun pc =>
    (toNumeric pc.2).map
      (fun q => (pc.1, (extractYear ((f.cols.getD pc.1.2 "").toList)).getD 0, q)))


/-! ## Aggregator: `groupby(...)["consumption"].sum()` on lists -/

/-- A pandas `groupby(key)[val].sum()`: one output pair per distinct key (in
`List.dedup` order), holding the sum of `val` over the rows with that key.
With an `Option`-valued component in the key this is the `dropna=False`
behaviour of run_analysis.py lines 23-26: null keys form their own group. -/
def groupby_sum {α κ : Type} [DecidableEq κ] (key : α → κ) (val : α → ℚ)
    (l : List α) : List (κ × ℚ) :=
  (l.map key).dedup.map
    (fun k => (k, ((l.filter (fun x => key x = k)).map val).sum))

/-! ## The canonical long-form table (output of prepare_data.py, input of
run_analysis.py and app.py) -/

/-- One row of the persisted long-form table.  An `Option String` field is a
column whose cell may be null (pandas NaN); its value is only meaningful when
the corresponding column exists in the frame. -/
structure LongRec where
  business_type : Option String
  resource_zone : Option String
  occupancy_status : Option String
  year : Int
  consumption : ℚ
deriving DecidableEq

/-- A loaded long-form table: which canonical columns are present in the
schema, plus the rows. -/
structure LongFrame where
  hasBusiness : Bool
  hasZone : Bool
  hasOcc : Bool
  rows : List LongRec
deriving DecidableEq

/-! ## Analyzer, batch side (run_analysis.py) -/

/-- A category-by-year pivot of summed consumption
(`pivot(index=..., columns="year", values="consumption")`). -/
structure Pivot (ι : Type) where
  cats : List ι
  years : List Int
  val : ι → Int → ℚ

/-- The non-designated year columns, `others = [y for y in years if y != 2022]`
(run_analysis.py line 13, app.py line 305). -/
def otherYears (years : List Int) : List Int :=
  years.filter (fun y => y ≠ 2022)

/-- `pvt[others].mean(axis=1)` for one category (run_analysis.py line 14,
app.py line 307): the row mean over the non-2022 year columns.  With no such
column the pandas mean is NaN; here the `ℚ` division by zero gives 0, which
the caller then maps to `none` exactly as `.replace(0, np.nan)` does. -/
def baselineCell {ι : Type} (p : Pivot ι) (c : ι) : ℚ :=
  ((otherYears p.years).map (p.val c)).sum / ((otherYears p.years).length : ℚ)

/-- Lines 14-15 of run_analysis.py (and app.py lines 307-308) for one
category: `baseline.replace(0, np.nan)` followed by
`(pvt[2022] - baseline) / baseline * 100`, with NaN propagated as `none`. -/
def pctCell {ι : Type} (p : Pivot ι) (c : ι) : Option ℚ :=
  if baselineCell p c = 0 then none
  else some ((p.val c 2022 - baselineCell p c) / baselineCell p c * 100)

/-- `pct_change_2022_vs_baseline` (run_analysis.py lines 9-16): the result is
the column list and the rows; when 2022 is absent from the pivot columns the
frame is empty but keeps its two columns. -/
def pct_change_2022_vs_baseline {ι : Type} (p : Pivot ι) :
    List String × List (ι × Option ℚ) :=
  if p.years.contains 2022 = false then
    (["business_type", "pct_change_vs_baseline"], [])
  else
    (["business_type", "pct_change_vs_baseline"],
     p.cats.map (fun c => (c, pctCell p c)))

/-- The pivot built by run_analysis.py line 36:
`by_business.pivot(index="business_type", columns="year",
values="consumption").fillna(0)` where `by_business` grouped with
`dropna=False`.  A pivot cell is therefore the sum of consumption over the
rows with that (category, year) key, and 0 where no row exists. -/
def buildPivot (l : List LongRec) : Pivot (Option String) where
  cats := (l.map (fun r => r.business_type)).dedup
  years := (l.map (fun r => r.year)).dedup
  val := fun c y =>
    ((l.filter (fun r => decide (r.business_type = c) && decide (r.year = y))).map
      (fun r => r.consumption)).sum

/-- The tables produced by the aggregation stage of `main`
(run_analysis.py lines 22-26 and 36-37). -/
structure AggOut where
  by_year : List (Int × ℚ)
  by_business : List ((Option String × Int) × ℚ)
  by_zone : List ((Option String × Int) × ℚ)
  by_occ : Option (List ((Option String × Int) × ℚ))
  anomalies : List String × List (Option String × Option ℚ)

/-- `main` of run_analysis.py, lines 22-26 and 36-37: `by_year` always
computes; the `by_business` and `by_zone` groupbys raise a `KeyError` when
their column is absent from the frame; only `by_occ` is guarded by an
`if "occupancy_status" in df.columns` check (line 26) and degrades to `None`.
The error value models the uncaught exception. -/
def run_analysis_agg (f : LongFrame) : Except String AggOut :=
  if f.hasBusiness = false then Except.error "KeyError: business_type"
  else if f.hasZone = false then Except.error "KeyError: resource zone"
  else Except.ok
    { by_year := groupby_sum (fun r => r.year) (fun r => r.consumption) f.rows
      by_business := groupby_sum (fun r => (r.business_type, r.year))
        (fun r => r.consumption) f.rows
      by_zone := groupby_sum (fun r => (r.resource_zone, r.year))
        (fun r => r.consumption) f.rows
      by_occ :=
        if f.hasOcc then
          some (groupby_sum (fun r => (r.occupancy_status, r.year))
            (fun r => r.consumption) f.rows)
        else none
      anomalies := pct_change_2022_vs_baseline (buildPivot f.rows) }

/-! ## Analyzer, dashboard side (dashboards/app.py) -/

/-- `load_data` (app.py lines 169-170) applies `.astype(str).str.strip()` to
the category columns: a null cell becomes the literal string `"nan"`, and
every value is stripped. -/
def appStr (o : Option String) : String :=
  match o with
  | some s => ⟨trimCL s.data⟩
  | none => "nan"

/-- The result of one dashboard view: either the computed table or the
explanatory `st.info` message shown instead. -/
inductive ViewResult (α : Type) where
  | unavailable (msg : String)
  | ok (a : α)
deriving DecidableEq

/-- `occ = df.groupby(["occupancy_status", "year"])["consumption"].sum()`
(app.py line 275); the keys are strings because `load_data` already applied
`.astype(str)`. -/
def occGroups (f : LongFrame) : List ((String × Int) × ℚ) :=
  groupby_sum (fun r => (appStr r.occupancy_status, r.year))
    (fun r => r.consumption) f.rows

/-- `vac = occ[occ["occupancy_status"].str.contains("vacant", case=False, na=False)]`
(app.py line 276). -/
def vacGroups (f : LongFrame) : List ((String × Int) × ℚ) :=
  (occGroups f).filter (fun g => containsVacant g.1.1)

/-- `total_by_year = df.groupby("year")["consumption"].sum()` (app.py line 286). -/
def total_by_year (f : LongFrame) : List (Int × ℚ) :=
  groupby_sum (fun r => r.year) (fun r => r.consumption) f.rows

/-- Lookup of a year's total for the inner merge of app.py line 288; every
year of a vacant group comes from some row, so it is always found. -/
def totalOf (f : LongFrame) (y : Int) : ℚ :=
  match (total_by_year f).find? (fun t => t.1 = y) with
  | some t => t.2
  | none => 0

/-- The value class of an IEEE float expression whose inputs are exact
rationals: finite, an infinity, or NaN. -/
inductive FVal where
  | fin (q : ℚ)
  | pinf
  | ninf
  | nan
deriving DecidableEq

/-- `100 * share["consumption"] / share["total"]` (app.py line 289) as float
arithmetic over exact inputs: a zero denominator yields NaN for a zero
numerator and a signed infinity otherwise. -/
def shareVal (v t : ℚ) : FVal :=
  if t = 0 then (if v = 0 then FVal.nan else if 0 < v then FVal.pinf else FVal.ninf)
  else FVal.fin (100 * v / t)

/-- The `share` table of app.py lines 288-289: each vacant (status, year)
group merged with that year's total and given its `vacant_share_%`. -/
def shareTable (f : LongFrame) : List ((String × Int) × ℚ × FVal) :=
  (vacGroups f).map (fun g => (g.1, g.2, shareVal g.2 (totalOf f g.1.2)))


/-- The pivot built inside tab3 (app.py lines 303-304):
`df.groupby(["business_type","year"])...pivot(...).fillna(0)`, with string
categories because `load_data` applied `.astype(str)`. -/
def appPivot (f : LongFrame) : Pivot String where
  cats := (f.rows.map (fun r => appStr r.business_type)).dedup
  years := (f.rows.map (fun r => r.year)).dedup
  val := fun c y =>
    ((f.rows.filter (fun r => decide (appStr r.business_type = c) &&
        decide (r.year = y))).map (fun r => r.consumption)).sum

/-- The comparator of `sort_values("pct_change_2022_vs_baseline",
ascending=False)` (app.py line 309): finite values descending, NaN last. -/
def pctGe : Option ℚ → Option ℚ → Bool
  | some a, some b => decide (b ≤ a)
  | some _, none => true
  | none, some _ => false
  | none, none => true

/-- Tab 1, "Business Type" (app.py lines 243-268): guarded on the presence of
`business_type`; otherwise `st.info("No business_type column detected.")`. -/
def tab1 (f : LongFrame) : ViewResult (List ((String × Int) × ℚ)) :=
  if f.hasBusiness then
    ViewResult.ok (groupby_sum (fun r => (appStr r.business_type, r.year))
      (fun r => r.consumption) f.rows)
  else ViewResult.unavailable "No business_type column detected."

/-- Tab 2, "Vacant Trend" (app.py lines 272-294): guarded on
`occupancy_status`; an empty vacant selection gets its own message; otherwise
the vacant table and the share table are shown. -/
def tab2 (f : LongFrame) :
    ViewResult (List ((String × Int) × ℚ) × List ((String × Int) × ℚ × FVal)) :=
  if f.hasOcc then
    if (vacGroups f).isEmpty then
      ViewResult.unavailable "No rows identified as vacant in the filtered data."
    else ViewResult.ok (vacGroups f, shareTable f)
  else ViewResult.unavailable "No occupancy_status column detected."

/-- Tab 3, "2022 Anomalies" (app.py lines 300-326): guarded on
`business_type` and the presence of 2022; inside, an empty `others` list gets
its own message; otherwise the per-category pct-change column sorted
descending with NaN last. -/
def tab3 (f : LongFrame) : ViewResult (List (String × Option ℚ)) :=
  if f.hasBusiness && (f.rows.map (fun r => r.year)).contains 2022 then
    if (otherYears (appPivot f).years).isEmpty then
      ViewResult.unavailable "Need at least one non-2022 year to form a baseline."
    else
      ViewResult.ok (List.insertionSort (fun x y => pctGe x.2 y.2 = true)
        ((appPivot f).cats.map (fun c => (c, pctCell (appPivot f) c))))
  else ViewResult.unavailable "No 2022 in data or business_type missing."

/-- Tab 4, "Resource Zones" (app.py lines 330-355): guarded on
`resource zone`. -/
def tab4 (f : LongFrame) : ViewResult (List ((String × Int) × ℚ)) :=
  if f.hasZone then
    ViewResult.ok (groupby_sum (fun r => (appStr r.resource_zone, r.year))
      (fun r => r.consumption) f.rows)
  else ViewResult.unavailable "No resource zone column detected."

/-! ## Definitions modelled from the spec

The repository is larger than the files under src/ (the spec counts ≈718
lines against the 468 present here); the OLS trend classification of
spec §4.4(b) and the anomaly significance filter of spec §4.4(c) appear in no
file under src/.  The following definitions embed those two pieces from the
specification's words, to be checked against (and on top of) the source
embeddings above. -/

/-- Modelled from the spec: the spec's formula of §4.4(c), stated in the
spec's own words for comparison with the source embedding `pctCell` —
"`baseline = mean(consumption over all years except the designated year)`; if
baseline is exactly 0, treat it as undefined (null)";
"`pct_change = (designated_year_value − baseline) / baseline × 100`". -/
def pctSpec {ι : Type} (p : Pivot ι) (c : ι) : Option ℚ :=
  let ys := p.years.filter (fun y => y ≠ 2022)
  let mean := (ys.map (p.val c)).sum / (ys.length : ℚ)
  if mean = 0 then none
  else some ((p.val c 2022 - mean) / mean * 100)

/-- The numpy median of a list of rationals: middle element of the sorted
list, or the mean of the two middle elements for an even length. -/
def medianQ (l : List ℚ) : ℚ :=
  let s := List.insertionSort (fun a b => a ≤ b) l
  if s.length = 0 then 0
  else if s.length % 2 = 1 then s.getD (s.length / 2) 0
  else (s.getD (s.length / 2 - 1) 0 + s.getD (s.length / 2) 0) / 2

/-- Modelled from the spec: the significance filter of §4.4(c) — absent from
src/ (the dashboard shows the full ranked table with no filter) — "Significance
filter for materially higher: `pct_change ≥ 20` and `designated_year_value ≥
median(designated_year_value across all categories)` — both conditions
required"; built on the source pct-change computation `pctCell`. -/
def significantAnomalies {ι : Type} (p : Pivot ι) : List ι :=
  p.cats.filter (fun c =>
    match pctCell p c with
    | some d => decide (20 ≤ d) &&
        decide (medianQ (p.cats.map (fun x => p.val x 2022)) ≤ p.val c 2022)
    | none => false)

/-- Modelled from the spec: the OLS slope of consumption against year of
§4.4(b) — absent from src/ — "Fit a simple ordinary-least-squares line of
consumption against year (requires ≥2 distinct years; with fewer, slope is
defined as 0/flat)". -/
def olsSlope (pts : List (ℚ × ℚ)) : ℚ :=
  if (pts.map Prod.fst).dedup.length < 2 then 0
  else
    let n : ℚ := pts.length
    let sx := (pts.map Prod.fst).sum
    let sy := (pts.map Prod.snd).sum
    let sxy := (pts.map (fun pr => pr.1 * pr.2)).sum
    let sxx := (pts.map (fun pr => pr.1 * pr.1)).sum
    (n * sxy - sx * sy) / (n * sxx - sx * sx)

/-- Modelled from the spec: §4.4(b)'s direction classification — "Classify
direction as increasing (slope > 0), decreasing (slope < 0), or flat
(slope == 0), using strict sign comparison". -/
def classifyTrend (s : ℚ) : String :=
  if 0 < s then "increasing" else if s < 0 then "decreasing" else "flat"

/-- Modelled from the spec: "Aggregate vacant consumption by year" (§4.4(b))
— the vacant groups of the source (app.py line 276) summed per year, the
input points of the trend fit. -/
def vacByYear (f : LongFrame) : List (Int × ℚ) :=
  groupby_sum (fun g => g.1.2) (fun g => g.2) (vacGroups f)

/-- Modelled from the spec: the vacant-trend classification of §4.4(b),
composed from the source vacant selection and the spec's OLS fit. -/
def vacantTrend (f : LongFrame) : String :=
  classifyTrend (olsSlope ((vacByYear f).map (fun g => ((g.1 : ℚ), g.2))))

/-! ## Concrete frames and pivots used by witnesses and counterexamples -/

/-- A concrete boundary pivot for C1: category "A" sits exactly at a 20.0%
change and exactly at the median 2022 volume, "B" at 19%, "C" well above
both thresholds. -/
def P1 : Pivot String where
  cats := ["A", "B", "C"]
  years := [2021, 2022]
  val := fun c y =>
    if c = "A" then (if y = 2022 then 120 else 100)
    else if c = "B" then (if y = 2022 then 119 else 100)
    else (if y = 2022 then 121 else 50)

/-- The two-row frame refuting C5: in year 2020 the vacant row consumes 100
while an occupied row consumes −100, so the year's total is exactly 0 and the
float expression `100 * 100 / 0` is +∞ rather than an undefined value. -/
def F5 : LongFrame :=
  LongFrame.mk true true true
    [LongRec.mk none none (some "Vacant") 2020 100,
     LongRec.mk none none (some "Occupied") 2020 (-100)]

/-! ## Helper lemmas -/

theorem sum_filter_split {α : Type} (p : α → Bool) (val : α → ℚ) (l : List α) :
    ((l.filter p).map val).sum + ((l.filter (fun x => !(p x))).map val).sum
      = (l.map val).sum := by
  induction l with
  | nil => simp
  | cons a t ih =>
    by_cases h : p a = true
    · simp only [List.filter_cons, h, Bool.not_true, List.map_cons, List.sum_cons,
        if_true, if_false, Bool.false_eq_true]
      linarith [ih]
    · simp only [List.filter_cons, h, List.map_cons, List.sum_cons,
        Bool.not_eq_true] at *
      simp only [h, Bool.not_false, if_true, if_false, Bool.false_eq_true,
        List.map_cons, List.sum_cons]
      linarith [ih]

theorem partition_sum {α κ : Type} [DecidableEq κ] (key : α → κ) (val : α → ℚ) :
    ∀ (ks : List κ) (l : List α), ks.Nodup → (∀ x ∈ l, key x ∈ ks) →
      (ks.map (fun k => ((l.filter (fun x => key x = k)).map val).sum)).sum
        = (l.map val).sum := by
  intro ks
  induction ks with
  | nil =>
    intro l _ hcov
    have hl : l = [] := by
      cases l with
      | nil => rfl
      | cons a t => exact absurd (hcov a (by simp)) (by simp)
    subst hl; simp
  | cons k ks ih =>
    intro l hnd hcov
    have hk : k ∉ ks := (List.nodup_cons.mp hnd).1
    have hnd' : ks.Nodup := (List.nodup_cons.mp hnd).2
    have hsplit := sum_filter_split (fun x => decide (key x = k)) val l
    rw [List.map_cons, List.sum_cons]
    have hcov' : ∀ x ∈ l.filter (fun x => !(decide (key x = k))), key x ∈ ks := by
      intro x hx
      have hx' := List.mem_filter.mp hx
      rcases List.mem_cons.mp (hcov x hx'.1) with h | h
      · exfalso
        have := hx'.2
        simp [h] at this
      · exact h
    have htail :
        (ks.map (fun j => ((l.filter (fun x => key x = j)).map val).sum)).sum
          = ((l.filter (fun x => !(decide (key x = k)))).map val).sum := by
      rw [← ih (l.filter (fun x => !(decide (key x = k)))) hnd' hcov']
      apply congrArg List.sum
      apply List.map_congr_left
      intro j hj
      have hjk : j ≠ k := by rintro rfl; exact hk hj
      congr 1
      rw [List.filter_filter]
      apply congrArg (List.map val)
      apply List.filter_congr
      intro x hx
      by_cases hxj : key x = j
      · have hxk : ¬(key x = k) := by rw [hxj]; exact hjk
        simp [hxj, hxk]
        exact hjk
      · simp [hxj]
    rw [htail]
    linarith [hsplit]

/-- Aggregation conservation: the per-group sums of a `groupby_sum` add up to
the total of the aggregated column. -/
theorem groupby_sum_conserves {α κ : Type} [DecidableEq κ] (key : α → κ)
    (val : α → ℚ) (l : List α) :
    ((groupby_sum key val l).map Prod.snd).sum = (l.map val).sum := by
  unfold groupby_sum
  rw [List.map_map]
  exact partition_sum key val (l.map key).dedup l (List.nodup_dedup _)
    (fun x hx => List.mem_dedup.mpr (List.mem_map_of_mem _ hx))

/-- The keys of a `groupby_sum` are exactly the deduplicated keys of the
input rows. -/
theorem groupby_sum_keys {α κ : Type} [DecidableEq κ] (key : α → κ)
    (val : α → ℚ) (l : List α) :
    (groupby_sum key val l).map Prod.fst = (l.map key).dedup := by
  unfold groupby_sum
  rw [List.map_map]
  have h : (Prod.fst ∘ fun k : κ =>
      (k, ((l.filter (fun x => key x = k)).map val).sum)) = id := by
    funext k; rfl
  rw [h, List.map_id]

theorem foldl_rename (n : List String) :
    ∀ (tbl : List (String × List String)) (acc : List (String × String)),
      tbl.foldl (fun acc ta =>
        match ta.2.find? (fun a => n.contains a) with
        | some a => acc ++ [(a, ta.1)]
        | none => acc) acc
      = acc ++ tbl.filterMap (fun ta =>
          (ta.2.find? (fun a => n.contains a)).map (fun a => (a, ta.1))) := by
  intro tbl
  induction tbl with
  | nil => intro acc; simp
  | cons ta tbl ih =>
    intro acc
    cases h : ta.2.find? (fun a => n.contains a) with
    | none =>
      simp only [List.foldl_cons, List.filterMap_cons, h, Option.map_none']
      exact ih acc
    | some a =>
      simp only [List.foldl_cons, List.filterMap_cons, h, Option.map_some']
      rw [ih (acc ++ [(a, ta.1)])]
      simp

theorem buildRenameAux_eq (tbl : List (String × List String)) (n : List String) :
    buildRenameAux tbl n
      = tbl.filterMap (fun ta =>
          (ta.2.find? (fun a => n.contains a)).map (fun a => (a, ta.1))) := by
  unfold buildRenameAux
  simpa using foldl_rename n tbl []

theorem mem_buildRenameAux (tbl : List (String × List String))
    (htbl : (tbl.map Prod.fst).Nodup) (n : List String) (t a2 : String)
    (as : List String) (hmem : (t, as) ∈ tbl) :
    ((a2, t) ∈ buildRenameAux tbl n ↔
      as.find? (fun x => n.contains x) = some a2) := by
  rw [buildRenameAux_eq]
  constructor
  · intro h
    obtain ⟨ta, hta, hg⟩ := List.mem_filterMap.mp h
    obtain ⟨a3, hfind, heq⟩ := Option.map_eq_some'.mp hg
    have h1 : ta.1 = t := congrArg Prod.snd heq
    have h2 : a3 = a2 := congrArg Prod.fst heq
    have hta' : ta = (t, as) := List.inj_on_of_nodup_map htbl hta hmem h1
    rw [hta'] at hfind
    rw [← h2]
    exact hfind
  · intro h
    exact List.mem_filterMap.mpr ⟨(t, as), hmem, by rw [h]; rfl⟩

/-! ## Claim C9 — alias matching -/

/-- C9: alias matching in the Schema Normalizer depends only on the
lowercased/trimmed column names (case-insensitive, whitespace-trimmed and
therefore deterministic across runs on identical input), and for each
canonical field an alias `a2` is mapped to that field exactly when `a2` is
the first alias of the field's ordered candidate list that occurs among the
raw columns. -/
theorem C9_alias_matching (cols1 cols2 : List String) (t a2 : String)
    (as : List String) :
    (cols1.map canonName = cols2.map canonName →
       normalize_columns cols1 = normalize_columns cols2) ∧
    ((t, as) ∈ COLUMN_ALIASES →
       ((a2, t) ∈ buildRename (cols1.map canonName) ↔
          as.find? (fun x => (cols1.map canonName).contains x) = some a2)) := by
  constructor
  · intro h
    unfold normalize_columns
    rw [h]
  · intro hmem
    exact mem_buildRenameAux COLUMN_ALIASES (by decide)
      (cols1.map canonName) t a2 as hmem

/-- Witness for C9 at the spec's own scenario: a table holding two
differently-cased/spaced variants of the alias `zone` normalizes the same way
as its lowercased twin, and the single rename picked is
`zone ↦ resource zone`. -/
theorem C9_alias_matching_witness :
    normalize_columns ["Zone", " ZONE "] = normalize_columns ["zone", "zone"] ∧
    ("zone", "resource zone") ∈ buildRename (["Zone", " ZONE "].map canonName) :=
  ⟨(C9_alias_matching ["Zone", " ZONE "] ["zone", "zone"] "resource zone" "zone"
      ["resource zone", "zone", "rz"]).1 (by decide),
   ((C9_alias_matching ["Zone", " ZONE "] ["zone", "zone"] "resource zone" "zone"
      ["resource zone", "zone", "rz"]).2 (by decide)).mpr (by decide)⟩

/-! ## Claim C8 — normalizer frame effect (corrected) -/

/-- Counterexample to C8 as stated: the raw column `"FOO "` matches no alias,
yet it does not appear in the output unchanged — `normalize_columns`
lowercases and strips every column name first, so the output holds `"foo"`
and not `"FOO "`. -/
theorem C8_counterexample :
    normalize_columns ["FOO "] = ["foo"] ∧ "FOO " ∉ normalize_columns ["FOO "] := by
  decide

/-- C8 as amended: the Schema Normalizer keeps the rows (hence the row count)
of the frame intact and never errors; every raw column survives (none is
dropped), but under its lowercased/whitespace-trimmed name; a column whose
canonical name matches no rename entry keeps that canonical name (it is not
mapped to a canonical field). -/
theorem C8_normalizer_frame (f : RawFrame) :
    (normalize_frame f).rows = f.rows ∧
    (normalize_frame f).cols.length = f.cols.length ∧
    (normalize_frame f).cols
      = f.cols.map (fun c =>
          applyRename (buildRename (f.cols.map canonName)) (canonName c)) ∧
    (∀ c, (∀ pr ∈ buildRename (f.cols.map canonName), pr.1 ≠ canonName c) →
      applyRename (buildRename (f.cols.map canonName)) (canonName c)
        = canonName c) := by
  refine ⟨rfl, ?_, ?_, ?_⟩
  · simp [normalize_frame, normalize_columns]
  · simp [normalize_frame, normalize_columns, List.map_map]
  · intro c h
    unfold applyRename
    have hnone :
        (buildRename (f.cols.map canonName)).find?
          (fun pr => pr.1 = canonName c) = none := by
      apply List.find?_eq_none.mpr
      intro pr hpr
      simpa using h pr hpr
    rw [hnone]

/-- Witness for C8's amended statement on a concrete frame: the rows survive
and the unmatched column `"Total Usage"` keeps its canonical name. -/
theorem C8_normalizer_frame_witness :
    (normalize_frame (RawFrame.mk ["Zone", "Total Usage"]
        [[Cell.str "a", Cell.num 1]])).rows = [[Cell.str "a", Cell.num 1]] ∧
    applyRename (buildRename (["Zone", "Total Usage"].map canonName))
        (canonName "Total Usage") = canonName "Total Usage" :=
  ⟨(C8_normalizer_frame (RawFrame.mk ["Zone", "Total Usage"]
      [[Cell.str "a", Cell.num 1]])).1,
   (C8_normalizer_frame (RawFrame.mk ["Zone", "Total Usage"]
      [[Cell.str "a", Cell.num 1]])).2.2.2 "Total Usage" (by decide)⟩

/-! ## Claim C10 — pivot without the designated year -/

/-- C10: when 2022 is not among the pivot's year columns,
`pct_change_2022_vs_baseline` returns an empty frame that still carries
exactly the columns `business_type` and `pct_change_vs_baseline`, with no
rows and no error. -/
theorem C10_no2022_empty {ι : Type} (p : Pivot ι) (h : (2022 : Int) ∉ p.years) :
    pct_change_2022_vs_baseline p
      = (["business_type", "pct_change_vs_baseline"], []) := by
  unfold pct_change_2022_vs_baseline
  have hc : p.years.contains 2022 = false := by
    simpa using h
  rw [hc]
  rfl

/-- Witness for C10 on a concrete pivot whose years are 2020 and 2021. -/
theorem C10_no2022_empty_witness :
    (2022 : Int) ∉ [(2020 : Int), 2021] ∧
    pct_change_2022_vs_baseline (Pivot.mk ["A"] [2020, 2021] (fun _ _ => (1 : ℚ)))
      = (["business_type", "pct_change_vs_baseline"], []) :=
  ⟨by decide,
   C10_no2022_empty (Pivot.mk ["A"] [2020, 2021] (fun _ _ => (1 : ℚ))) (by decide)⟩

/-! ## Claim C3 — baseline and pct-change formula -/

/-- C3: on the category-by-year pivot of summed consumption built by
run_analysis.py (structurally-absent cells filled with 0, third conjunct),
when 2022 and at least one other year are present, the anomaly computation
produces, for every category, exactly the spec's value: baseline is the mean
over all years except 2022, a baseline of exactly 0 is null rather than an
infinite ratio, and otherwise
pct_change = (designated-year value − baseline) / baseline × 100. -/
theorem C3_baseline_formula (l : List LongRec)
    (h1 : (2022 : Int) ∈ (buildPivot l).years)
    (_h2 : ∃ y ∈ (buildPivot l).years, y ≠ 2022) :
    ((pct_change_2022_vs_baseline (buildPivot l)).2
        = (buildPivot l).cats.map (fun c => (c, pctSpec (buildPivot l) c))) ∧
    (∀ c y, (∀ r ∈ l, ¬(r.business_type = c ∧ r.year = y)) →
        (buildPivot l).val c y = 0) ∧
    (∀ c, baselineCell (buildPivot l) c = 0 → pctCell (buildPivot l) c = none) ∧
    (∀ c, baselineCell (buildPivot l) c ≠ 0 →
        pctCell (buildPivot l) c
          = some (((buildPivot l).val c 2022 - baselineCell (buildPivot l) c)
              / baselineCell (buildPivot l) c * 100)) := by
  refine ⟨?_, ?_, ?_, ?_⟩
  · have hc : (buildPivot l).years.contains 2022 = true := by simpa using h1
    unfold pct_change_2022_vs_baseline
    rw [hc]
    rfl
  · intro c y h
    show ((l.filter (fun r => decide (r.business_type = c) &&
        decide (r.year = y))).map (fun r => r.consumption)).sum = 0
    have hnil : l.filter (fun r => decide (r.business_type = c) &&
        decide (r.year = y)) = [] := by
      apply List.filter_eq_nil_iff.mpr
      intro r hr
      have := h r hr
      simp only [Bool.and_eq_true, decide_eq_true_eq]
      intro hcon
      exact this hcon
    rw [hnil]
    rfl
  · intro c h
    unfold pctCell
    rw [if_pos h]
  · intro c h
    unfold pctCell
    rw [if_neg h]

/-- Witness for C3 on a concrete two-row table (category "A", years 2021 and
2022). -/
theorem C3_baseline_formula_witness :
    (2022 : Int) ∈ (buildPivot
        [LongRec.mk (some "A") none none 2021 100,
         LongRec.mk (some "A") none none 2022 150]).years ∧
    (pct_change_2022_vs_baseline (buildPivot
        [LongRec.mk (some "A") none none 2021 100,
         LongRec.mk (some "A") none none 2022 150])).2
      = (buildPivot
          [LongRec.mk (some "A") none none 2021 100,
           LongRec.mk (some "A") none none 2022 150]).cats.map
          (fun c => (c, pctSpec (buildPivot
            [LongRec.mk (some "A") none none 2021 100,
             LongRec.mk (some "A") none none 2022 150]) c)) :=
  ⟨by decide,
   (C3_baseline_formula
      [LongRec.mk (some "A") none none 2021 100,
       LongRec.mk (some "A") none none 2022 150]
      (by decide) (by decide)).1⟩

/-! ## Claim C1 — significance filter (spec-modelled) -/

/-- C1: for every pivot containing the designated year 2022, the
significant-anomaly list (modelled from the spec, on top of the source
pct-change computation) holds exactly the categories whose pct_change is
defined and ≥ 20 and whose 2022 consumption is ≥ the median 2022 consumption
across all categories — both thresholds inclusive; categories failing either
condition (or with an undefined pct_change) are excluded. -/
theorem C1_significant_iff {ι : Type} (p : Pivot ι)
    (_h2022 : (2022 : Int) ∈ p.years) (c : ι) :
    c ∈ significantAnomalies p ↔
      c ∈ p.cats ∧ ∃ d, pctCell p c = some d ∧ 20 ≤ d ∧
        medianQ (p.cats.map (fun x => p.val x 2022)) ≤ p.val c 2022 := by
  unfold significantAnomalies
  rw [List.mem_filter]
  cases hp : pctCell p c with
  | none => simp [hp]
  | some d => simp [hp]

/-- Witness for C1 at the boundary: "A" (exactly 20.0% and exactly the
median) is included, "B" (19% change) is excluded. -/
theorem C1_significant_iff_witness :
    (2022 : Int) ∈ P1.years ∧
    "A" ∈ significantAnomalies P1 ∧
    "B" ∉ significantAnomalies P1 :=
  ⟨by decide,
   (C1_significant_iff P1 (by decide) "A").mpr
     ⟨by decide, 20,
      by norm_num [pctCell, baselineCell, otherYears, P1],
      le_refl 20,
      by norm_num [medianQ, List.insertionSort, List.orderedInsert, P1,
        show ("B" : String) ≠ "A" by decide, show ("C" : String) ≠ "A" by decide,
        show ("C" : String) ≠ "B" by decide]⟩,
   fun h => by
     obtain ⟨-, d, hd, h20, -⟩ := (C1_significant_iff P1 (by decide) "B").mp h
     have h19 : pctCell P1 "B" = some 19 := by
       norm_num [pctCell, baselineCell, otherYears, P1,
         show ("B" : String) ≠ "A" by decide]
     rw [h19] at hd
     rw [(Option.some_inj.mp hd).symm] at h20
     norm_num at h20⟩

/-! ## Claim C2 — vacant selection and trend classification (spec-modelled
OLS on top of the source selection) -/

/-- C2: the vacant view selects exactly the (status, year) groups whose
occupancy descriptor contains the case-insensitive substring "vacant"
(source, app.py line 276); the classification of the OLS slope (modelled from
the spec) is "increasing" iff slope > 0, "decreasing" iff slope < 0, "flat"
iff slope == 0 by strict sign comparison; with fewer than 2 distinct years
the slope is defined as 0; and the vacant trend is the classification of the
slope of vacant consumption against year. -/
theorem C2_vacant_trend (f : LongFrame) (pts : List (ℚ × ℚ)) :
    (∀ g, g ∈ vacGroups f ↔ g ∈ occGroups f ∧ containsVacant g.1.1 = true) ∧
    (classifyTrend (olsSlope pts) = "increasing" ↔ 0 < olsSlope pts) ∧
    (classifyTrend (olsSlope pts) = "decreasing" ↔ olsSlope pts < 0) ∧
    (classifyTrend (olsSlope pts) = "flat" ↔ olsSlope pts = 0) ∧
    ((pts.map Prod.fst).dedup.length < 2 → olsSlope pts = 0) ∧
    (vacantTrend f
      = classifyTrend (olsSlope ((vacByYear f).map (fun g => ((g.1 : ℚ), g.2))))) := by
  have hcls : ∀ s : ℚ,
      (classifyTrend s = "increasing" ↔ 0 < s) ∧
      (classifyTrend s = "decreasing" ↔ s < 0) ∧
      (classifyTrend s = "flat" ↔ s = 0) := by
    intro s
    unfold classifyTrend
    rcases lt_trichotomy 0 s with h | h | h
    · rw [if_pos h]
      exact ⟨⟨fun _ => h, fun _ => rfl⟩,
        ⟨fun hs => absurd hs (by decide), fun hs => absurd h (by linarith)⟩,
        ⟨fun hs => absurd hs (by decide), fun hs => absurd (hs ▸ h) (lt_irrefl 0)⟩⟩
    · subst h
      simp
    · rw [if_neg (not_lt.mpr (le_of_lt h)), if_pos h]
      exact ⟨⟨fun hs => absurd hs (by decide), fun hs => absurd h (by linarith)⟩,
        ⟨fun _ => h, fun _ => rfl⟩,
        ⟨fun hs => absurd hs (by decide), fun hs => absurd (hs ▸ h) (lt_irrefl 0)⟩⟩
  refine ⟨?_, (hcls (olsSlope pts)).1, (hcls (olsSlope pts)).2.1,
    (hcls (olsSlope pts)).2.2, ?_, rfl⟩
  · intro g
    unfold vacGroups
    exact List.mem_filter
  · intro h
    unfold olsSlope
    rw [if_pos h]

/-- Witness for C2 at the spec's own test vectors: consumption 100/200/300
over 2020-2022 is "increasing" (slope 100), 300/200/100 is "decreasing",
100/100/100 is "flat", and a single year yields slope 0. -/
theorem C2_vacant_trend_witness :
    classifyTrend (olsSlope [((2020 : ℚ), 100), (2021, 200), (2022, 300)])
      = "increasing" ∧
    olsSlope [((2020 : ℚ), 100), (2021, 200), (2022, 300)] = 100 ∧
    classifyTrend (olsSlope [((2020 : ℚ), 300), (2021, 200), (2022, 100)])
      = "decreasing" ∧
    classifyTrend (olsSlope [((2020 : ℚ), 100), (2021, 100), (2022, 100)])
      = "flat" ∧
    olsSlope [((2020 : ℚ), 100)] = 0 :=
  ⟨(C2_vacant_trend (LongFrame.mk true true true [])
      [((2020 : ℚ), 100), (2021, 200), (2022, 300)]).2.1.mpr
      (by norm_num [olsSlope]),
   by norm_num [olsSlope],
   (C2_vacant_trend (LongFrame.mk true true true [])
      [((2020 : ℚ), 300), (2021, 200), (2022, 100)]).2.2.1.mpr
      (by norm_num [olsSlope]),
   (C2_vacant_trend (LongFrame.mk true true true [])
      [((2020 : ℚ), 100), (2021, 100), (2022, 100)]).2.2.2.1.mpr
      (by norm_num [olsSlope]),
   (C2_vacant_trend (LongFrame.mk true true true [])
      [((2020 : ℚ), 100)]).2.2.2.2.1 (by norm_num)⟩

/-! ## Claim C7 — aggregation conservation -/

/-- C7: for each grouping dimension of the pipeline (business_type,
resource zone, occupancy_status — each with year — and year alone), the
per-group sums of consumption add up to the total long-form consumption, and
every row — in particular one whose category value is missing (`none`) —
contributes a group key that is present in the output. -/
theorem C7_aggregation_conservation (l : List LongRec) :
    (((groupby_sum (fun r => (r.business_type, r.year))
        (fun r => r.consumption) l).map Prod.snd).sum
      = (l.map (fun r => r.consumption)).sum) ∧
    (((groupby_sum (fun r => (r.resource_zone, r.year))
        (fun r => r.consumption) l).map Prod.snd).sum
      = (l.map (fun r => r.consumption)).sum) ∧
    (((groupby_sum (fun r => (r.occupancy_status, r.year))
        (fun r => r.consumption) l).map Prod.snd).sum
      = (l.map (fun r => r.consumption)).sum) ∧
    (((groupby_sum (fun r => r.year) (fun r => r.consumption) l).map
        Prod.snd).sum
      = (l.map (fun r => r.consumption)).sum) ∧
    (∀ r ∈ l, (r.business_type, r.year) ∈
        (groupby_sum (fun r => (r.business_type, r.year))
          (fun r => r.consumption) l).map Prod.fst) := by
  refine ⟨groupby_sum_conserves _ _ _, groupby_sum_conserves _ _ _,
    groupby_sum_conserves _ _ _, groupby_sum_conserves _ _ _, ?_⟩
  intro r hr
  rw [groupby_sum_keys]
  exact List.mem_dedup.mpr (List.mem_map_of_mem _ hr)

/-- Witness for C7 on a concrete table containing a row with a missing
(`none`) business_type: conservation holds and the null key forms its own
group. -/
theorem C7_aggregation_conservation_witness :
    (((groupby_sum (fun r => (r.business_type, r.year))
        (fun r => r.consumption)
        [LongRec.mk none none none 2021 5,
         LongRec.mk (some "A") none none 2021 7]).map Prod.snd).sum
      = ([LongRec.mk none none none 2021 5,
          LongRec.mk (some "A") none none 2021 7].map
          (fun r => r.consumption)).sum) ∧
    (((none : Option String), (2021 : Int)) ∈
        (groupby_sum (fun r => (r.business_type, r.year))
          (fun r => r.consumption)
          [LongRec.mk none none none 2021 5,
           LongRec.mk (some "A") none none 2021 7]).map Prod.fst) :=
  ⟨(C7_aggregation_conservation
      [LongRec.mk none none none 2021 5,
       LongRec.mk (some "A") none none 2021 7]).1,
   (C7_aggregation_conservation
      [LongRec.mk none none none 2021 5,
       LongRec.mk (some "A") none none 2021 7]).2.2.2.2
     (LongRec.mk none none none 2021 5) (List.mem_cons_self _ _)⟩

/-! ## Claim C6 — reshaper row accounting -/

theorem map_fst_filterMap {κ β γ δ : Type} (u : κ × β → Option γ)
    (w : κ × β → γ → δ) (l : List (κ × β)) :
    (l.filterMap (fun pc => (u pc).map (fun q => (pc.1, w pc q)))).map Prod.fst
      = (l.filter (fun pc => (u pc).isSome)).map Prod.fst := by
  induction l with
  | nil => rfl
  | cons a t ih =>
    cases h : u a with
    | none => simp [List.filterMap_cons, List.filter_cons, h, ih]
    | some q => simp [List.filterMap_cons, List.filter_cons, h, ih]

theorem length_filterMap_pair {κ β γ δ : Type} (u : κ × β → Option γ)
    (w : κ × β → γ → δ) (l : List (κ × β)) :
    (l.filterMap (fun pc => (u pc).map (fun q => (pc.1, w pc q)))).length
      = (l.filter (fun pc => (u pc).isSome)).length := by
  calc (l.filterMap (fun pc => (u pc).map (fun q => (pc.1, w pc q)))).length
      = ((l.filterMap (fun pc =>
          (u pc).map (fun q => (pc.1, w pc q)))).map Prod.fst).length :=
        (List.length_map _ _).symm
    _ = ((l.filter (fun pc => (u pc).isSome)).map Prod.fst).length := by
        rw [map_fst_filterMap u w l]
    _ = (l.filter (fun pc => (u pc).isSome)).length := List.length_map _ _

theorem filter_length_lt {α : Type} (p : α → Bool) (l : List α) (x : α)
    (hx : x ∈ l) (hpx : p x = false) : (l.filter p).length < l.length := by
  induction l with
  | nil => cases hx
  | cons a t ih =>
    by_cases hpa : p a = true
    · rw [List.filter_cons_of_pos hpa]
      simp only [List.length_cons]
      rcases List.mem_cons.mp hx with heq | hx2
      · rw [← heq] at hpa
        rw [hpa] at hpx
        cases hpx
      · exact Nat.succ_lt_succ (ih hx2)
    · rw [List.filter_cons_of_neg hpa]
      simp only [List.length_cons]
      exact Nat.lt_succ_of_le (List.length_filter_le p t)

theorem detect_length (f : RawFrame) :
    (detect_year_columns f.cols).length = (yearCols f).length := by
  unfold detect_year_columns yearCols
  conv_lhs => rw [← List.enum_map_snd f.cols]
  rw [List.filter_map, List.length_map]
  rfl

theorem meltPairs_length (f : RawFrame) :
    (meltPairs f).length
      = f.rows.length * (detect_year_columns f.cols).length := by
  unfold meltPairs
  rw [List.length_flatMap]
  have h1 : ((yearCols f).map (List.length ∘ fun ci =>
      f.rows.enum.map (fun ri => ((ri.1, ci.1), ri.2.getD ci.1 Cell.missing)))).sum
      = ((yearCols f).map (fun _ => f.rows.length)).sum := by
    apply congrArg List.sum
    apply List.map_congr_left
    intro ci _
    simp [List.enum_length]
  rw [h1]
  rw [show ((yearCols f).map (fun _ => f.rows.length))
      = List.replicate (yearCols f).length f.rows.length from List.map_const ..]
  rw [List.sum_replicate, smul_eq_mul, detect_length f]
  exact Nat.mul_comm _ _

theorem reshape_map_fst (f : RawFrame) :
    (reshape f).map Prod.fst
      = ((meltPairs f).filter (fun pc => (toNumeric pc.2).isSome)).map
          Prod.fst :=
  map_fst_filterMap (fun pc => toNumeric pc.2)
    (fun (pc : (Nat × Nat) × Cell) q =>
      ((extractYear ((f.cols.getD pc.1.2 "").toList)).getD 0, q))
    (meltPairs f)

theorem meltPairs_fst_nodup (f : RawFrame) :
    ((meltPairs f).map Prod.fst).Nodup := by
  unfold meltPairs
  rw [List.map_flatMap]
  have henum : f.rows.enum.Nodup :=
    List.Nodup.of_map Prod.fst (List.nodup_enum_map_fst _)
  have hyfst : ((yearCols f).map Prod.fst).Nodup := by
    refine List.Nodup.sublist ?_ (List.nodup_enum_map_fst f.cols)
    exact List.Sublist.map Prod.fst (List.filter_sublist _)
  have hpair : (yearCols f).Pairwise (fun a b => a.1 ≠ b.1) :=
    List.pairwise_map.mp hyfst
  refine List.nodup_flatMap.mpr ⟨?_, ?_⟩
  · intro ci _
    rw [List.map_map]
    refine List.Nodup.map_on ?_ henum
    intro x hxmem y hymem hxy
    refine List.inj_on_of_nodup_map (List.nodup_enum_map_fst f.rows)
      hxmem hymem ?_
    simpa using congrArg Prod.fst hxy
  · refine hpair.imp ?_
    intro a b hab
    intro x hxa hxb
    simp only [List.map_map] at hxa hxb
    obtain ⟨ra, _, hra⟩ := List.mem_map.mp hxa
    obtain ⟨rb, _, hrb⟩ := List.mem_map.mp hxb
    apply hab
    have h2 : x.2 = a.1 := by
      rw [← hra]
      rfl
    have h3 : x.2 = b.1 := by
      rw [← hrb]
      rfl
    rw [← h2, h3]

/-- C6: the Reshaper emits exactly the melt pairs whose consumption cell
coerces (first conjunct), the melt step emits exactly one record per
(row, detected year column) pair (second conjunct for the count, last two for
non-duplication), the output size is bounded by rows × detected year columns,
and the bound is strict as soon as one coercion fails. -/
theorem C6_reshaper (f : RawFrame) :
    ((reshape f).length
        = ((meltPairs f).filter (fun pc => (toNumeric pc.2).isSome)).length) ∧
    ((meltPairs f).length
        = f.rows.length * (detect_year_columns f.cols).length) ∧
    ((reshape f).length
        ≤ f.rows.length * (detect_year_columns f.cols).length) ∧
    ((∃ pc ∈ meltPairs f, toNumeric pc.2 = none) →
        (reshape f).length
          < f.rows.length * (detect_year_columns f.cols).length) ∧
    ((meltPairs f).map Prod.fst).Nodup ∧
    ((reshape f).map Prod.fst).Nodup := by
  have hlen : (reshape f).length
      = ((meltPairs f).filter (fun pc => (toNumeric pc.2).isSome)).length :=
    length_filterMap_pair (fun pc => toNumeric pc.2)
      (fun (pc : (Nat × Nat) × Cell) q =>
        ((extractYear ((f.cols.getD pc.1.2 "").toList)).getD 0, q))
      (meltPairs f)
  have hmelt := meltPairs_length f
  refine ⟨hlen, hmelt, ?_, ?_, meltPairs_fst_nodup f, ?_⟩
  · rw [hlen, ← hmelt]
    exact List.length_filter_le _ _
  · rintro ⟨pc, hpc, hnone⟩
    rw [hlen, ← hmelt]
    refine filter_length_lt _ _ pc hpc ?_
    rw [hnone]
    rfl
  · rw [reshape_map_fst]
    refine List.Nodup.sublist ?_ (meltPairs_fst_nodup f)
    exact List.Sublist.map Prod.fst (List.filter_sublist _)

/-- Witness for C6 on a concrete frame with two rows, two detected year
columns and one unparsable consumption cell: 3 = 4 − 1 rows survive. -/
theorem C6_reshaper_witness :
    (∃ pc ∈ meltPairs (RawFrame.mk ["name", "2020", "2021"]
        [[Cell.str "Bob", Cell.str "1", Cell.str "x"],
         [Cell.missing, Cell.str "2", Cell.str "3"]]),
      toNumeric pc.2 = none) ∧
    (reshape (RawFrame.mk ["name", "2020", "2021"]
        [[Cell.str "Bob", Cell.str "1", Cell.str "x"],
         [Cell.missing, Cell.str "2", Cell.str "3"]])).length
      < (RawFrame.mk ["name", "2020", "2021"]
          [[Cell.str "Bob", Cell.str "1", Cell.str "x"],
           [Cell.missing, Cell.str "2", Cell.str "3"]]).rows.length
        * (detect_year_columns (RawFrame.mk ["name", "2020", "2021"]
            [[Cell.str "Bob", Cell.str "1", Cell.str "x"],
             [Cell.missing, Cell.str "2", Cell.str "3"]]).cols).length ∧
    (reshape (RawFrame.mk ["name", "2020", "2021"]
        [[Cell.str "Bob", Cell.str "1", Cell.str "x"],
         [Cell.missing, Cell.str "2", Cell.str "3"]])).length = 3 :=
  ⟨by decide,
   (C6_reshaper (RawFrame.mk ["name", "2020", "2021"]
      [[Cell.str "Bob", Cell.str "1", Cell.str "x"],
       [Cell.missing, Cell.str "2", Cell.str "3"]])).2.2.2.1 (by decide),
   by decide⟩

/-! ## Claim C4 — missing canonical fields (corrected) -/

/-- Counterexample to C4 as stated: on a frame whose schema lacks
`business_type` (one row, zone and occupancy present), the batch pipeline of
run_analysis.py does not return an "unavailable" result — its unguarded
`df.groupby(["business_type", "year"])` raises a KeyError, and none of the
other views' tables are produced. -/
theorem C4_counterexample :
    run_analysis_agg (LongFrame.mk false true true
        [LongRec.mk none (some "Z") (some "Occupied") 2020 1])
      = Except.error "KeyError: business_type" := rfl

/-- C4 as amended: in the dashboard each of the four views is guarded — a
missing field yields an explicit "unavailable" message and the other tabs are
unaffected by that field's presence flag — while in run_analysis.py only
`occupancy_status` is guarded (its aggregate degrades to `None` and the rest
still compute); a missing `business_type` or `resource zone` there raises a
KeyError instead. -/
theorem C4_missing_field (f : LongFrame) (b b2 : Bool) :
    (f.hasBusiness = false →
        run_analysis_agg f = Except.error "KeyError: business_type") ∧
    (f.hasBusiness = true → f.hasZone = false →
        run_analysis_agg f = Except.error "KeyError: resource zone") ∧
    (f.hasBusiness = true → f.hasZone = true → f.hasOcc = false →
        ∃ out, run_analysis_agg f = Except.ok out ∧ out.by_occ = none) ∧
    (f.hasBusiness = false →
        tab1 f = ViewResult.unavailable "No business_type column detected.") ∧
    (f.hasOcc = false →
        tab2 f = ViewResult.unavailable "No occupancy_status column detected.") ∧
    (f.hasZone = false →
        tab4 f = ViewResult.unavailable "No resource zone column detected.") ∧
    (f.hasBusiness = false →
        tab3 f = ViewResult.unavailable
          "No 2022 in data or business_type missing.") ∧
    (tab1 (LongFrame.mk f.hasBusiness b b2 f.rows) = tab1 f) ∧
    (tab2 (LongFrame.mk b b2 f.hasOcc f.rows) = tab2 f) ∧
    (tab3 (LongFrame.mk f.hasBusiness b b2 f.rows) = tab3 f) ∧
    (tab4 (LongFrame.mk b f.hasZone b2 f.rows) = tab4 f) := by
  refine ⟨?_, ?_, ?_, ?_, ?_, ?_, ?_, rfl, rfl, rfl, rfl⟩
  · intro h
    unfold run_analysis_agg
    rw [h]
    rfl
  · intro h1 h2
    unfold run_analysis_agg
    rw [h1, h2]
    rfl
  · intro h1 h2 h3
    refine ⟨{ by_year := groupby_sum (fun r => r.year)
                (fun r => r.consumption) f.rows
              by_business := groupby_sum (fun r => (r.business_type, r.year))
                (fun r => r.consumption) f.rows
              by_zone := groupby_sum (fun r => (r.resource_zone, r.year))
                (fun r => r.consumption) f.rows
              by_occ := none
              anomalies := pct_change_2022_vs_baseline (buildPivot f.rows) },
      ?_, rfl⟩
    unfold run_analysis_agg
    rw [h1, h2]
    simp [h3]
  · intro h
    unfold tab1
    rw [h]
    rfl
  · intro h
    unfold tab2
    rw [h]
    rfl
  · intro h
    unfold tab4
    rw [h]
    rfl
  · intro h
    unfold tab3
    rw [h]
    rfl

/-- Witness for C4's amended statement on concrete frames: occupancy missing
makes tab2 unavailable while the batch aggregation still produces all other
tables with `by_occ = None`; business_type missing makes the batch pipeline
raise. -/
theorem C4_missing_field_witness :
    (tab2 (LongFrame.mk true true false [])
      = ViewResult.unavailable "No occupancy_status column detected.") ∧
    (∃ out, run_analysis_agg (LongFrame.mk true true false [])
        = Except.ok out ∧ out.by_occ = none) ∧
    (run_analysis_agg (LongFrame.mk false true true [])
      = Except.error "KeyError: business_type") :=
  ⟨(C4_missing_field (LongFrame.mk true true false []) true true).2.2.2.2.1 rfl,
   (C4_missing_field (LongFrame.mk true true false []) true true).2.2.1
     rfl rfl rfl,
   (C4_missing_field (LongFrame.mk false true true []) true true).1 rfl⟩

/-! ## Claim C5 — vacant share at a zero total (corrected) -/

/-- Counterexample to C5 as stated: on `F5` the year-2020 total is 0, yet the
share computed by app.py line 289 for the vacant group is +∞ — not reported
as undefined. -/
theorem C5_counterexample :
    totalOf F5 2020 = 0 ∧
    shareTable F5 = [(("Vacant", 2020), 100, FVal.pinf)] := by
  have hv : appStr (some "Vacant") = "Vacant" := by decide
  have ho : appStr (some "Occupied") = "Occupied" := by decide
  have hcv : containsVacant "Vacant" = true := by decide
  have hco : containsVacant "Occupied" = false := by decide
  have htot : totalOf F5 2020 = 0 := by
    norm_num [totalOf, total_by_year, groupby_sum, F5, List.find?]
  have hd : [("Vacant", (2020 : Int)), ("Occupied", 2020)].dedup
      = [("Vacant", 2020), ("Occupied", 2020)] := by decide
  have hvac : vacGroups F5 = [(("Vacant", 2020), (100 : ℚ))] := by
    norm_num [vacGroups, occGroups, groupby_sum, F5, hv, ho, hcv, hco, hd,
      List.filter_cons, List.filter_nil, List.sum_cons, List.sum_nil,
      show ("Occupied" : String) ≠ "Vacant" by decide,
      show ("Vacant" : String) ≠ "Occupied" by decide]
  refine ⟨htot, ?_⟩
  unfold shareTable
  rw [hvac]
  norm_num [shareVal, htot]

/-- C5 as amended: every vacant (status, year) group appears in the share
table with share `100 × consumption / total` of that year; when the year's
total is exactly 0 the share is NaN only for a zero numerator, and a signed
infinity (not an undefined value) for a nonzero one. -/
theorem C5_share_division (f : LongFrame) (g : (String × Int) × ℚ)
    (hg : g ∈ vacGroups f) :
    ((g.1, g.2, shareVal g.2 (totalOf f g.1.2)) ∈ shareTable f) ∧
    (totalOf f g.1.2 ≠ 0 →
        shareVal g.2 (totalOf f g.1.2)
          = FVal.fin (100 * g.2 / totalOf f g.1.2)) ∧
    (totalOf f g.1.2 = 0 → g.2 = 0 →
        shareVal g.2 (totalOf f g.1.2) = FVal.nan) ∧
    (totalOf f g.1.2 = 0 → 0 < g.2 →
        shareVal g.2 (totalOf f g.1.2) = FVal.pinf) ∧
    (totalOf f g.1.2 = 0 → g.2 < 0 →
        shareVal g.2 (totalOf f g.1.2) = FVal.ninf) := by
  refine ⟨List.mem_map_of_mem _ hg, ?_, ?_, ?_, ?_⟩
  · intro h1
    unfold shareVal
    rw [if_neg h1]
  · intro h1 h2
    unfold shareVal
    rw [if_pos h1, if_pos h2]
  · intro h1 h2
    unfold shareVal
    rw [if_pos h1, if_neg h2.ne', if_pos h2]
  · intro h1 h2
    unfold shareVal
    rw [if_pos h1, if_neg h2.ne, if_neg (not_lt.mpr h2.le)]

/-- Witness for C5's amended statement on a frame with a nonzero total:
the vacant group (100 of a 200 total) appears in the share table with a
finite share. -/
theorem C5_share_division_witness :
    ((("Vacant", (2020 : Int)), (100 : ℚ)) ∈ vacGroups (LongFrame.mk true true
        true [LongRec.mk none none (some "Vacant") 2020 100,
              LongRec.mk none none (some "Occupied") 2020 100])) ∧
    ((("Vacant", (2020 : Int)), (100 : ℚ),
        shareVal 100 (totalOf (LongFrame.mk true true true
          [LongRec.mk none none (some "Vacant") 2020 100,
           LongRec.mk none none (some "Occupied") 2020 100]) 2020))
      ∈ shareTable (LongFrame.mk true true true
          [LongRec.mk none none (some "Vacant") 2020 100,
           LongRec.mk none none (some "Occupied") 2020 100])) := by
  have hv : appStr (some "Vacant") = "Vacant" := by decide
  have ho : appStr (some "Occupied") = "Occupied" := by decide
  have hcv : containsVacant "Vacant" = true := by decide
  have hco : containsVacant "Occupied" = false := by decide
  have hd : [("Vacant", (2020 : Int)), ("Occupied", 2020)].dedup
      = [("Vacant", 2020), ("Occupied", 2020)] := by decide
  have hg : (("Vacant", (2020 : Int)), (100 : ℚ)) ∈ vacGroups
      (LongFrame.mk true true true
        [LongRec.mk none none (some "Vacant") 2020 100,
         LongRec.mk none none (some "Occupied") 2020 100]) := by
    have hvac : vacGroups (LongFrame.mk true true true
        [LongRec.mk none none (some "Vacant") 2020 100,
         LongRec.mk none none (some "Occupied") 2020 100])
        = [(("Vacant", 2020), (100 : ℚ))] := by
      norm_num [vacGroups, occGroups, groupby_sum, hv, ho, hcv, hco, hd,
        List.filter_cons, List.filter_nil, List.sum_cons, List.sum_nil,
        show ("Occupied" : String) ≠ "Vacant" by decide,
        show ("Vacant" : String) ≠ "Occupied" by decide]
    rw [hvac]
    exact List.mem_cons_self _ _
  exact ⟨hg, (C5_share_division (LongFrame.mk true true true
    [LongRec.mk none none (some "Vacant") 2020 100,
     LongRec.mk none none (some "Occupied") 2020 100])
    (("Vacant", (2020 : Int)), (100 : ℚ)) hg).1⟩
